import Mathlib

/-!
Verification development for the Nebula-X SVG asset generator
(`generate_svgs.py`).  The generator is a single Python script that builds
nine SVG documents out of fixed literal polygon data and writes them to an
output directory.  We embed the script shallowly: coordinates become exact
rationals, path-description strings become lists of drawing instructions,
SVG documents become records, and the file-system effects become explicit
state passing over a map from filenames to documents.
-/

/-- A 2-D point, as in the Python tuples `(x, y)`. -/
abbrev Point := ℚ × ℚ

/-- The affine transform applied inside every path comprehension:
`(p[0]*scale + offset_x, p[1]*scale + offset_y)`. -/
def transformPt (scale offX offY : ℚ) (p : Point) : Point :=
  (p.1 * scale + offX, p.2 * scale + offY)

/-- One drawing instruction of an SVG path `d` attribute: the `M`, `L`
and `Z` commands emitted by the script. -/
inductive Instr where
  | move (p : Point)
  | line (p : Point)
  | close
deriving DecidableEq

/-- The polygon path builder, the pattern
`"M " + " L ".join([f"{p[0]*scale+offset_x},{p[1]*scale+offset_y}" for p in points]) + " Z"`
used for the mark and for every letterform contour: move to the first
transformed point, line to each subsequent transformed point in order,
then close. -/
def buildPath (points : List Point) (scale offX offY : ℚ) : List Instr :=
  (match points.map (transformPt scale offX offY) with
   | [] => []
   | t :: ts => Instr.move t :: ts.map Instr.line) ++ [Instr.close]

/-- The fixed 10-point "N" outline of `get_n_mark_path`. -/
def nMarkPoints : List Point :=
  [(0, 100), (0, 0), (30, 0), (70, 70), (70, 0), (100, 0),
   (100, 100), (70, 100), (30, 30), (30, 100)]

/-- Python `get_n_mark_path(scale, offset_x, offset_y)`. -/
def get_n_mark_path (scale offX offY : ℚ) : List Instr :=
  buildPath nMarkPoints scale offX offY

/-- Letter "E" points (`pts_e`). -/
def pts_e : List Point :=
  [(0, 0), (80, 0), (80, 20), (20, 20), (20, 40), (60, 40),
   (60, 60), (20, 60), (20, 80), (80, 80), (80, 100), (0, 100)]

/-- Letter "B" outer contour (`pts_b_out`). -/
def pts_b_out : List Point :=
  [(0, 0), (60, 0), (80, 20), (80, 40), (60, 50), (80, 60),
   (80, 80), (60, 100), (0, 100)]

/-- Letter "B" first inner contour (`pts_b_in1`). -/
def pts_b_in1 : List Point :=
  [(20, 20), (50, 20), (60, 30), (50, 40), (20, 40)]

/-- Letter "B" second inner contour (`pts_b_in2`). -/
def pts_b_in2 : List Point :=
  [(20, 60), (50, 60), (60, 70), (50, 80), (20, 80)]

/-- Letter "U" points (`pts_u`). -/
def pts_u : List Point :=
  [(0, 0), (20, 0), (20, 80), (60, 80), (60, 0), (80, 0), (80, 100), (0, 100)]

/-- Letter "L" points (`pts_l`). -/
def pts_l : List Point :=
  [(0, 0), (20, 0), (20, 80), (80, 80), (80, 100), (0, 100)]

/-- Letter "A" outer contour (`pts_a_out`). -/
def pts_a_out : List Point :=
  [(40, 0), (60, 0), (100, 100), (80, 100), (70, 70), (30, 70), (20, 100), (0, 100)]

/-- Letter "A" inner (counter) contour (`pts_a_in`). -/
def pts_a_in : List Point :=
  [(40, 50), (60, 50), (50, 20)]

/-- Letter "X" points (`pts_x`). -/
def pts_x : List Point :=
  [(0, 0), (25, 0), (50, 40), (75, 0), (100, 0), (65, 50),
   (100, 100), (75, 100), (50, 60), (25, 100), (0, 100), (35, 50)]

/-- All polygon literals of the script: the mark's "N" outline and every
letterform contour of the wordmark. -/
def allPolygons : List (List Point) :=
  [nMarkPoints, pts_e, pts_b_out, pts_b_in1, pts_b_in2,
   pts_u, pts_l, pts_a_out, pts_a_in, pts_x]

/-- The fill attribute of a `<path>` or `<rect>` element. -/
inductive Fill where
  | color (c : String)
  | gradientRef (id : String)
  | currentColor
  | patternRef (id : String)
deriving DecidableEq

/-- One `<path d="..." [fill-rule="evenodd"] fill=.../>` element; `d` is
the concatenation of its subpaths, `evenodd` records whether the element
carries `fill-rule="evenodd"`. -/
structure PathE where
  d : List Instr
  evenodd : Bool
  fill : Fill
deriving DecidableEq

/-- A non-nested SVG element produced by the script. -/
inductive Atom where
  | gradientDefs (id stop0 stop100 : String)
  | pathE (p : PathE)
  | group (color : String) (paths : List PathE)
  | circle (cx cy r : ℚ) (fill : String) (opacity : ℚ)
  | rectFull (f : Fill)
  | patternDefs (id : String) (circles : List (ℚ × ℚ × ℚ × String × ℚ))
deriving DecidableEq

/-- A body element: either a plain atom or the bare `<g>` wrapper used by
the ornate logos. -/
inductive Elem where
  | atom (a : Atom)
  | gwrap (content : List Atom)
deriving DecidableEq

/-- The body of an SVG document. -/
abbrev Content := List Elem

/-- Lift a flat atom list to a content list. -/
def atoms (l : List Atom) : Content :=
  l.map Elem.atom

/-- Path elements contributed by one atom. -/
def atomPaths : Atom → List PathE
  | .pathE p => [p]
  | .group _ ps => ps
  | _ => []

/-- Path elements contributed by one body element. -/
def elemPaths : Elem → List PathE
  | .atom a => atomPaths a
  | .gwrap l => l.flatMap atomPaths

/-- All path elements of a document body. -/
def contentPaths (c : Content) : List PathE :=
  c.flatMap elemPaths

/-- The `COLORS` palette dictionary. -/
def COLORS : List (String × String) :=
  [("Deep Space", "#0B0D17"), ("Space Navy", "#111827"),
   ("Nebula Purple", "#7C3AED"), ("Cosmic Cyan", "#06B6D4"),
   ("Stellar Gold", "#F59E0B"), ("Starlight White", "#F1F5F9"),
   ("Aurora Green", "#10B981"), ("Mars Red", "#EF4444")]

/-- Palette lookup, `COLORS[name]`. -/
def color (name : String) : String :=
  (List.lookup name COLORS).getD ""

/-- Python `int()` on a rational: truncation toward zero. -/
def pyInt (q : ℚ) : ℤ :=
  if 0 ≤ q then q.floor else q.ceil

/-- An SVG document as assembled by `create_svg`: the root element's
declared width, height and viewBox, and the body content. -/
structure SvgDoc where
  width : ℤ
  height : ℤ
  viewBox : ℤ × ℤ × ℤ × ℤ
  content : Content
deriving DecidableEq

/-- Python `create_svg`'s document template
`<svg width="{width}" height="{height}" viewBox="0 0 {width} {height}" ...>{content}</svg>`:
the viewBox is interpolated from the same width and height. -/
def create_svg (width height : ℤ) (content : Content) : SvgDoc :=
  { width := width, height := height, viewBox := (0, 0, width, height),
    content := content }

/-- The `<defs>` block with the `nebula_gradient` linear gradient. -/
def nebulaDefs : Atom :=
  .gradientDefs "nebula_gradient" (color "Nebula Purple") (color "Cosmic Cyan")

/-- Python `get_wordmark_paths(scale, start_x, start_y)`: one path element
per letter of "NEBULA X", advancing a cursor `x` by each letter's base
width times the scale (120, 100, 100, 100, 100, 120, then 40 for the
space, then 120 for the X); B and A concatenate their inner contours onto
the outer one in a single path tagged `fill-rule="evenodd"`.  Returns the
path list and the final cursor `x`. -/
def get_wordmark_paths (scale start_x start_y : ℚ) : List PathE × ℚ :=
  let x0 := start_x
  let pN : PathE := ⟨get_n_mark_path scale x0 start_y, false, Fill.currentColor⟩
  let x1 := x0 + 120 * scale
  let pE : PathE := ⟨buildPath pts_e scale x1 start_y, false, Fill.currentColor⟩
  let x2 := x1 + 100 * scale
  let pB : PathE :=
    ⟨buildPath pts_b_out scale x2 start_y ++ buildPath pts_b_in1 scale x2 start_y ++
      buildPath pts_b_in2 scale x2 start_y, true, Fill.currentColor⟩
  let x3 := x2 + 100 * scale
  let pU : PathE := ⟨buildPath pts_u scale x3 start_y, false, Fill.currentColor⟩
  let x4 := x3 + 100 * scale
  let pL : PathE := ⟨buildPath pts_l scale x4 start_y, false, Fill.currentColor⟩
  let x5 := x4 + 100 * scale
  let pA : PathE :=
    ⟨buildPath pts_a_out scale x5 start_y ++ buildPath pts_a_in scale x5 start_y,
      true, Fill.currentColor⟩
  let x6 := x5 + 120 * scale
  let x7 := x6 + 40 * scale
  let pX : PathE := ⟨buildPath pts_x scale x7 start_y, false, Fill.currentColor⟩
  let x8 := x7 + 120 * scale
  ([pN, pE, pB, pU, pL, pA, pX], x8)

/-- Body of `nebula-x-mark.svg` (and of `favicon.svg`, which reuses the
same `mark_content` value): defs plus the N path at scale 0.8 = 4/5,
offset (10, 10), gradient fill. -/
def mark_content : List Atom :=
  [nebulaDefs,
   .pathE ⟨get_n_mark_path (4/5) 10 10, false, .gradientRef "nebula_gradient"⟩]

/-- Body of `nebula-x-splash.svg`: the N path at scale 3, offset (50, 50). -/
def splash_content : List Atom :=
  [nebulaDefs,
   .pathE ⟨get_n_mark_path 3 50 50, false, .gradientRef "nebula_gradient"⟩]

/-- `get_wordmark_paths(scale=0.5)` as called for the wordmark asset. -/
def wordmark_pair : List PathE × ℚ :=
  get_wordmark_paths (1/2) 0 0

/-- Body of `nebula-x-wordmark.svg`: the letter paths inside a
`<g style="color:...">` group, Starlight White. -/
def wordmark_content : List Atom :=
  [.group (color "Starlight White") wordmark_pair.1]

/-- `get_wordmark_paths(scale=0.5, start_x=70, start_y=15)` as called for
the combined logos. -/
def logo_pair : List PathE × ℚ :=
  get_wordmark_paths (1/2) 70 15

/-- The `logo_mark` fragment: defs plus the N path at scale 0.6 = 3/5,
offset (0, 10). -/
def logo_mark_atoms : List Atom :=
  [nebulaDefs,
   .pathE ⟨get_n_mark_path (3/5) 0 10, false, .gradientRef "nebula_gradient"⟩]

/-- Body of `nebula-x-logo-light.svg`: the mark fragment then the
wordmark group in Space Navy. -/
def logo_light_atoms : List Atom :=
  logo_mark_atoms ++ [.group (color "Space Navy") logo_pair.1]

/-- Body of `nebula-x-logo-dark.svg`: defs again (the source interpolates
`defs` a second time before `logo_mark`, which already contains it), the
mark fragment, then the wordmark group in Starlight White. -/
def logo_dark_atoms : List Atom :=
  nebulaDefs :: logo_mark_atoms ++ [.group (color "Starlight White") logo_pair.1]

/-- The `ornate_blobs` fragment: two accent circles and a sparkle path
(the literal `M 50,-10 L 52,-4 L 58,-2 L 52,0 L 50,6 L 48,0 L 42,-2 L 48,-4 Z`). -/
def ornate_blob_atoms : List Atom :=
  [.circle ((pyInt logo_pair.2 - 10 : ℤ) : ℚ) 10 5 (color "Stellar Gold") (4/5),
   .circle 10 70 3 (color "Cosmic Cyan") (3/5),
   .pathE ⟨[.move (50, -10), .line (52, -4), .line (58, -2), .line (52, 0),
            .line (50, 6), .line (48, 0), .line (42, -2), .line (48, -4), .close],
           false, .color (color "Stellar Gold")⟩]

/-- Body of `space-bg-pattern.svg`: the `stars` pattern defs with its
three circle primitives, a background rect, and a pattern-filled rect. -/
def pattern_content : List Atom :=
  [.patternDefs "stars"
     [(10, 10, 3/2, color "Starlight White", 1/2),
      (50, 60, 5/2, color "Starlight White", 3/10),
      (80, 30, 2, color "Stellar Gold", 2/5)],
   .rectFull (.color (color "Deep Space")),
   .rectFull (.patternRef "stars")]

/-- A named output file: filename plus assembled document. -/
structure Asset where
  filename : String
  doc : SvgDoc
deriving DecidableEq

/-- Asset 1: `nebula-x-mark.svg`, 100×100. -/
def markAsset : Asset :=
  ⟨"nebula-x-mark.svg", create_svg 100 100 (atoms mark_content)⟩

/-- Asset 2: `nebula-x-splash.svg`, 400×400. -/
def splashAsset : Asset :=
  ⟨"nebula-x-splash.svg", create_svg 400 400 (atoms splash_content)⟩

/-- Asset 3: `nebula-x-wordmark.svg`, `int(width)`×60. -/
def wordmarkAsset : Asset :=
  ⟨"nebula-x-wordmark.svg", create_svg (pyInt wordmark_pair.2) 60 (atoms wordmark_content)⟩

/-- Asset 4: `nebula-x-logo-light.svg`, `int(logo_width)`×80. -/
def logoLightAsset : Asset :=
  ⟨"nebula-x-logo-light.svg", create_svg (pyInt logo_pair.2) 80 (atoms logo_light_atoms)⟩

/-- Asset 5: `nebula-x-logo-dark.svg`, `int(logo_width)`×80. -/
def logoDarkAsset : Asset :=
  ⟨"nebula-x-logo-dark.svg", create_svg (pyInt logo_pair.2) 80 (atoms logo_dark_atoms)⟩

/-- Asset 6: `nebula-x-logo-ornate-light.svg`: the light logo body and the
ornate blobs wrapped in a bare `<g>`. -/
def ornateLightAsset : Asset :=
  ⟨"nebula-x-logo-ornate-light.svg",
   create_svg (pyInt logo_pair.2) 80 [.gwrap (logo_light_atoms ++ ornate_blob_atoms)]⟩

/-- Asset 7: `nebula-x-logo-ornate-dark.svg`: the dark logo body and the
ornate blobs wrapped in a bare `<g>`. -/
def ornateDarkAsset : Asset :=
  ⟨"nebula-x-logo-ornate-dark.svg",
   create_svg (pyInt logo_pair.2) 80 [.gwrap (logo_dark_atoms ++ ornate_blob_atoms)]⟩

/-- Asset 8: `space-bg-pattern.svg`, 400×400. -/
def patternAsset : Asset :=
  ⟨"space-bg-pattern.svg", create_svg 400 400 (atoms pattern_content)⟩

/-- Asset 9: `favicon.svg`, 100×100, written with the same `mark_content`
string as the mark asset. -/
def faviconAsset : Asset :=
  ⟨"favicon.svg", create_svg 100 100 (atoms mark_content)⟩

/-- The nine files `generate_assets` writes, in source order. -/
def assets : List Asset :=
  [markAsset, splashAsset, wordmarkAsset, logoLightAsset, logoDarkAsset,
   ornateLightAsset, ornateDarkAsset, patternAsset, faviconAsset]

/-- The filenames written, in write order. -/
def assetFilenames : List String :=
  assets.map (·.filename)

/-- The observable file-system state: whether the output directory exists
and the file contents under it. -/
structure FS where
  hasDir : Bool
  files : String → Option SvgDoc

theorem FS.ext {fs₁ fs₂ : FS} (hd : fs₁.hasDir = fs₂.hasDir)
    (hf : fs₁.files = fs₂.files) : fs₁ = fs₂ := by
  cases fs₁; cases fs₂; simp_all

/-- Overwrite one file. -/
def writeFile (name : String) (doc : SvgDoc) (fs : FS) : FS :=
  { fs with files := fun n => if n = name then some doc else fs.files n }

/-- `os.makedirs(OUTPUT_DIR)` guarded by `os.path.exists`. -/
def ensureDir (fs : FS) : FS :=
  if fs.hasDir then fs else { fs with hasDir := true }

/-- The observable events of a run. -/
inductive Event where
  | mkdir
  | write (name : String)
deriving DecidableEq

/-- Write a list of assets sequentially, returning the final state and
the write events in order. -/
def writeAssets : List Asset → FS → FS × List Event
  | [], fs => (fs, [])
  | a :: rest, fs =>
    let r := writeAssets rest (writeFile a.filename a.doc fs)
    (r.1, Event.write a.filename :: r.2)

/-- Python `generate_assets()`: create the output directory if absent,
then write the nine assets in order. -/
def generate_assets (fs : FS) : FS × List Event :=
  let r := writeAssets assets (ensureDir fs)
  (r.1, (if fs.hasDir then [] else [Event.mkdir]) ++ r.2)

/-- The last planned write to filename `n` among `l`, if any (later list
entries shadow earlier ones, as later writes overwrite). -/
def plannedWrite : List Asset → String → Option SvgDoc
  | [], _ => none
  | a :: rest, n =>
    match plannedWrite rest n with
    | some d => some d
    | none => if n = a.filename then some a.doc else none

/-- Sequential writing where the write of a file may fail: `fail` says
which filenames error.  A failing write leaves the state unchanged,
aborts the remaining writes, and surfaces the failing filename as the
uncaught error. -/
def writeAssetsE (fail : String → Bool) : List Asset → FS → FS × Option String
  | [], fs => (fs, none)
  | a :: rest, fs =>
    if fail a.filename then (fs, some a.filename)
    else writeAssetsE fail rest (writeFile a.filename a.doc fs)

/-- `generate_assets` under the fallible writer: no handler anywhere, so
the first failure aborts the run. -/
def generate_assetsE (fail : String → Bool) (fs : FS) : FS × Option String :=
  writeAssetsE fail assets (ensureDir fs)

/-- Apply a list of writes unconditionally (used to describe the state a
partial run leaves behind). -/
def applyAssets (l : List Asset) (fs : FS) : FS :=
  l.foldl (fun s a => writeFile a.filename a.doc s) fs

/-- Every path the builder produces ends with the close instruction. -/
theorem buildPath_getLast (points : List Point) (scale offX offY : ℚ) :
    (buildPath points scale offX offY).getLast? = some Instr.close := by
  unfold buildPath
  exact List.getLast?_concat _

/-- A concatenation of built subpaths also ends with the close
instruction of its last subpath. -/
theorem append_buildPath_getLast (l : List Instr) (points : List Point)
    (scale offX offY : ℚ) :
    (l ++ buildPath points scale offX offY).getLast? = some Instr.close := by
  rw [List.getLast?_append_of_ne_nil, buildPath_getLast]
  simp [buildPath]

/-- Writing a list of assets leaves exactly the planned writes in the
file map; untouched names keep their previous contents. -/
theorem writeAssets_fst_files (l : List Asset) (fs : FS) (n : String) :
    ((writeAssets l fs).1).files n =
      match plannedWrite l n with
      | some d => some d
      | none => fs.files n := by
  induction l generalizing fs with
  | nil => rfl
  | cons a rest ih =>
    show ((writeAssets rest (writeFile a.filename a.doc fs)).1).files n = _
    rw [ih]
    cases h : plannedWrite rest n with
    | some d => simp [plannedWrite, h]
    | none =>
      simp only [plannedWrite, h, writeFile]
      by_cases hn : n = a.filename <;> simp [hn]

/-- Writing assets never changes the directory flag. -/
theorem writeAssets_fst_hasDir (l : List Asset) (fs : FS) :
    ((writeAssets l fs).1).hasDir = fs.hasDir := by
  induction l generalizing fs with
  | nil => rfl
  | cons a rest ih =>
    show ((writeAssets rest (writeFile a.filename a.doc fs)).1).hasDir = _
    rw [ih]; rfl

/-- The events of a sequential write are one write event per asset, in
order. -/
theorem writeAssets_snd (l : List Asset) (fs : FS) :
    (writeAssets l fs).2 = l.map (fun a => Event.write a.filename) := by
  induction l generalizing fs with
  | nil => rfl
  | cons a rest ih =>
    show Event.write a.filename :: (writeAssets rest _).2 = _
    rw [ih]; rfl

/-- Directory creation leaves the files untouched. -/
theorem ensureDir_files (fs : FS) : (ensureDir fs).files = fs.files := by
  by_cases h : fs.hasDir <;> simp [ensureDir, h]

/-- After directory creation the directory exists. -/
theorem ensureDir_hasDir (fs : FS) : (ensureDir fs).hasDir = true := by
  by_cases h : fs.hasDir <;> simp [ensureDir, h]

/-- File contents after a full run: each filename holds its planned
document; everything else is untouched. -/
theorem generate_assets_files (fs : FS) (n : String) :
    ((generate_assets fs).1).files n =
      match plannedWrite assets n with
      | some d => some d
      | none => fs.files n := by
  show ((writeAssets assets (ensureDir fs)).1).files n = _
  rw [writeAssets_fst_files]
  cases h : plannedWrite assets n <;> simp [h, ensureDir_files]

/-- After a full run the output directory exists. -/
theorem generate_assets_hasDir (fs : FS) :
    ((generate_assets fs).1).hasDir = true := by
  show ((writeAssets assets (ensureDir fs)).1).hasDir = true
  rw [writeAssets_fst_hasDir, ensureDir_hasDir]

/-- Every filename of the asset list has a planned document. -/
theorem plannedWrite_isSome (n : String) (hn : n ∈ assetFilenames) :
    (plannedWrite assets n).isSome = true := by
  fin_cases hn <;> rfl

/-- Splitting lemma for the fallible writer: with every write before `a`
succeeding and the write of `a` failing, the run stops at `a`, returns
the failing filename, and the state holds exactly the earlier writes. -/
theorem writeAssetsE_split (fail : String → Bool) (pre : List Asset) (a : Asset)
    (post : List Asset) (fs : FS)
    (hpre : ∀ b ∈ pre, fail b.filename = false)
    (hfail : fail a.filename = true) :
    writeAssetsE fail (pre ++ a :: post) fs = (applyAssets pre fs, some a.filename) := by
  induction pre generalizing fs with
  | nil => simp [writeAssetsE, hfail, applyAssets]
  | cons b pre ih =>
    have hb : fail b.filename = false := hpre b (by simp)
    show (if fail b.filename then _ else _) = _
    rw [hb]
    simp only [Bool.false_eq_true, if_false]
    rw [List.append_eq, ih _ (fun c hc => hpre c (by simp [hc]))]
    rfl

/-- A concrete empty file system: no output directory, no files. -/
def emptyFS : FS :=
  ⟨false, fun _ => none⟩

/-- A concrete already-populated file system. -/
def stubFS : FS :=
  ⟨true, fun _ => some (create_svg 1 1 [])⟩

/-- A failure oracle that makes exactly the wordmark write fail. -/
def failWordmark : String → Bool :=
  fun n => n == "nebula-x-wordmark.svg"

/-- C1: for every point sequence of length at least 2, positive scale and
real offsets, the builder transforms each point to
`(x*scale + offsetX, y*scale + offsetY)` and emits a move-to for the first
transformed point, a line-to for each subsequent point in the original
order, then one close; the first coordinate is the transformed head and
the instruction count is the point count plus one. -/
theorem C1_buildPath_transform_order_count (p₀ p₁ : Point) (rest : List Point)
    (scale offX offY : ℚ) (_hs : 0 < scale) :
    buildPath (p₀ :: p₁ :: rest) scale offX offY =
      Instr.move (transformPt scale offX offY p₀) ::
        ((p₁ :: rest).map (transformPt scale offX offY)).map Instr.line ++ [Instr.close]
    ∧ (buildPath (p₀ :: p₁ :: rest) scale offX offY).head? =
        some (Instr.move (p₀.1 * scale + offX, p₀.2 * scale + offY))
    ∧ (buildPath (p₀ :: p₁ :: rest) scale offX offY).length =
        (p₀ :: p₁ :: rest).length + 1 := by
  refine ⟨rfl, rfl, ?_⟩
  simp [buildPath]

/-- C1 witness: the builder on the concrete two-point sequence
`[(0,0), (1,2)]` with scale 2 and offsets (3, 4). -/
theorem C1_witness :
    buildPath [((0 : ℚ), (0 : ℚ)), (1, 2)] 2 3 4 =
      Instr.move (transformPt 2 3 4 (0, 0)) ::
        ([((1 : ℚ), (2 : ℚ))].map (transformPt 2 3 4)).map Instr.line ++ [Instr.close]
    ∧ (buildPath [((0 : ℚ), (0 : ℚ)), (1, 2)] 2 3 4).head? =
        some (Instr.move ((0 : ℚ) * 2 + 3, (0 : ℚ) * 2 + 4))
    ∧ (buildPath [((0 : ℚ), (0 : ℚ)), (1, 2)] 2 3 4).length =
        [((0 : ℚ), (0 : ℚ)), (1, 2)].length + 1 := by
  exact C1_buildPath_transform_order_count (0, 0) (1, 2) [] 2 3 4 (by norm_num)

/-- C2 counterexample: on the mark asset's call
`get_n_mark_path(scale=0.8, offset_x=10, offset_y=10)` the first
transformed point is (10, 90), not (10, 10): the "N" outline's first
point is (0, 100), not (0, 0). -/
theorem C2_cex_first_point_not_ten_ten :
    (get_n_mark_path (4/5) 10 10).head? = some (Instr.move (10, 90))
    ∧ (get_n_mark_path (4/5) 10 10).head? ≠ some (Instr.move (10, 10))
    ∧ nMarkPoints.head? = some ((0 : ℚ), (100 : ℚ)) := by
  refine ⟨?_, ?_, rfl⟩ <;>
    norm_num [get_n_mark_path, buildPath, transformPt, nMarkPoints]

/-- C2 (amended): generating the mark asset with scale 0.8 and offset
(10, 10) on the fixed 10-point "N" outline yields a path whose first
transformed point is (10, 90) — the outline's first point is (0, 100);
the point (0, 0) is the outline's second point and maps to (10, 10),
appearing as the first line-to. -/
theorem C2_mark_first_transformed_point :
    (get_n_mark_path (4/5) 10 10).head? = some (Instr.move (10, 90))
    ∧ nMarkPoints.head? = some ((0 : ℚ), (100 : ℚ))
    ∧ nMarkPoints[1]? = some ((0 : ℚ), (0 : ℚ))
    ∧ transformPt (4/5) 10 10 (0, 0) = (10, 10)
    ∧ (get_n_mark_path (4/5) 10 10)[1]? = some (Instr.line (10, 10))
    ∧ markAsset.doc.content = atoms mark_content := by
  refine ⟨?_, rfl, rfl, ?_, ?_, rfl⟩ <;>
    norm_num [get_n_mark_path, buildPath, transformPt, nMarkPoints]

/-- C3: the wordmark's total width at scale 0.5 is the sum of the
per-letter advances and word spacing (120, 100, 100, 100, 100, 120, 40
for the space, 120) times 0.5 = 400 > 0, and the wordmark file is
written with exactly that width and height 60. -/
theorem C3_wordmark_width_and_file :
    wordmark_pair.2 = (120 + 100 + 100 + 100 + 100 + 120 + 40 + 120) * (1/2 : ℚ)
    ∧ 0 < wordmark_pair.2
    ∧ wordmarkAsset.doc.width = pyInt wordmark_pair.2
    ∧ wordmarkAsset.doc.width = 400
    ∧ wordmarkAsset.doc.height = 60 := by
  have h : wordmark_pair.2 = 400 := by norm_num [wordmark_pair, get_wordmark_paths]
  refine ⟨by rw [h]; norm_num, by rw [h]; norm_num, rfl, ?_, rfl⟩
  show pyInt wordmark_pair.2 = 400
  rw [h]
  norm_num [pyInt, Rat.floor]

/-- C4: generation is deterministic (runs from any two starting states
agree on every generated file) and idempotent (a second run maps the
state produced by the first run to itself — every file is overwritten
with identical content; nothing in the model depends on time or
randomness). -/
theorem C4_deterministic_idempotent :
    (∀ fs₁ fs₂ : FS, ∀ n ∈ assetFilenames,
        ((generate_assets fs₁).1).files n = ((generate_assets fs₂).1).files n)
    ∧ ∀ fs : FS, (generate_assets ((generate_assets fs).1)).1 = (generate_assets fs).1 := by
  constructor
  · intro fs₁ fs₂ n hn
    rw [generate_assets_files, generate_assets_files]
    have hs := plannedWrite_isSome n hn
    cases hp : plannedWrite assets n with
    | none => rw [hp] at hs; simp at hs
    | some d => simp [hp]
  · intro fs
    apply FS.ext
    · rw [generate_assets_hasDir, generate_assets_hasDir]
    · funext n
      rw [generate_assets_files ((generate_assets fs).1) n]
      cases hp : plannedWrite assets n with
      | some d => simp only [generate_assets_files, hp]
      | none => simp only [generate_assets_files, hp]

/-- C4 witness: runs from the empty and from an already-populated state
agree on the favicon file. -/
theorem C4_witness :
    ((generate_assets emptyFS).1).files "favicon.svg" =
      ((generate_assets stubFS).1).files "favicon.svg" :=
  C4_deterministic_idempotent.1 emptyFS stubFS "favicon.svg" (by decide)

/-- C5: every polygon literal has distinct first and last points; every
emitted path description ends with a close instruction; and for any
transform parameters the B and A letterforms are emitted as single path
elements tagged even-odd whose `d` concatenates the outer contour with
the inner (hole) contours as additional subpaths. -/
theorem C5_closed_polygons_evenodd_holes :
    (∀ pts ∈ allPolygons, pts.head? ≠ pts.getLast?)
    ∧ (∀ a ∈ assets, ∀ pe ∈ contentPaths a.doc.content,
        pe.d.getLast? = some Instr.close)
    ∧ (∀ scale sx sy : ℚ,
        ((get_wordmark_paths scale sx sy).1)[2]? =
          some ⟨buildPath pts_b_out scale (sx + 120 * scale + 100 * scale) sy ++
                buildPath pts_b_in1 scale (sx + 120 * scale + 100 * scale) sy ++
                buildPath pts_b_in2 scale (sx + 120 * scale + 100 * scale) sy,
                true, Fill.currentColor⟩
        ∧ ((get_wordmark_paths scale sx sy).1)[5]? =
          some ⟨buildPath pts_a_out scale
                  (sx + 120 * scale + 100 * scale + 100 * scale + 100 * scale + 100 * scale) sy ++
                buildPath pts_a_in scale
                  (sx + 120 * scale + 100 * scale + 100 * scale + 100 * scale + 100 * scale) sy,
                true, Fill.currentColor⟩) := by
  refine ⟨by decide, ?_, fun scale sx sy => ⟨rfl, rfl⟩⟩
  intro a ha pe hpe
  fin_cases ha <;>
    simp only [markAsset, splashAsset, wordmarkAsset, logoLightAsset, logoDarkAsset,
      ornateLightAsset, ornateDarkAsset, patternAsset, faviconAsset, create_svg,
      contentPaths, atoms, elemPaths, atomPaths, mark_content, splash_content,
      wordmark_content, wordmark_pair, logo_pair, logo_light_atoms, logo_dark_atoms,
      logo_mark_atoms, ornate_blob_atoms, pattern_content, get_wordmark_paths,
      nebulaDefs, List.flatMap_cons, List.flatMap_nil, List.map_cons, List.map_nil,
      List.append_nil, List.nil_append, List.cons_append, List.singleton_append] at hpe <;>
    fin_cases hpe <;>
    first
      | exact buildPath_getLast _ _ _ _
      | exact append_buildPath_getLast _ _ _ _ _
      | rfl

/-- C5 witness: the N outline's first and last points differ, and the
mark asset's one path element ends with close. -/
theorem C5_witness :
    nMarkPoints.head? ≠ nMarkPoints.getLast?
    ∧ (⟨get_n_mark_path (4/5) 10 10, false,
        Fill.gradientRef "nebula_gradient"⟩ : PathE).d.getLast? = some Instr.close := by
  refine ⟨C5_closed_polygons_evenodd_holes.1 nMarkPoints (by decide), ?_⟩
  exact C5_closed_polygons_evenodd_holes.2.1 markAsset (by simp [assets])
    ⟨get_n_mark_path (4/5) 10 10, false, Fill.gradientRef "nebula_gradient"⟩
    (by simp [markAsset, create_svg, contentPaths, atoms, elemPaths, atomPaths,
          mark_content, nebulaDefs])

/-- C6: the favicon is a 100×100 document whose content is the very same
`mark_content` body as the standalone mark asset: same width, height and
body. -/
theorem C6_favicon_identical_to_mark :
    assets.find? (fun a => a.filename == "favicon.svg") = some faviconAsset
    ∧ faviconAsset.doc = create_svg 100 100 (atoms mark_content)
    ∧ faviconAsset.doc = markAsset.doc
    ∧ faviconAsset.doc.width = 100
    ∧ faviconAsset.doc.height = 100
    ∧ faviconAsset.doc.content = markAsset.doc.content := by
  exact ⟨rfl, rfl, rfl, rfl, rfl, rfl⟩

/-- C7 counterexample: the run writes nine distinct filenames, not
eight — the spec's own output list names nine files (the ornate asset
contributes a light and a dark file). -/
theorem C7_cex_nine_filenames :
    assetFilenames.length = 9
    ∧ assetFilenames.length ≠ 8
    ∧ assetFilenames.Nodup := by
  refine ⟨rfl, by decide, by decide⟩

/-- C7 (amended): the no-argument entry point generates all the assets
unconditionally; starting without the output directory, the directory is
created before any file write (the event trace is `mkdir` followed by
exactly the nine writes) and afterwards all nine expected filenames are
present. -/
theorem C7_entry_point_creates_dir_then_writes (fs : FS) (h : fs.hasDir = false) :
    (generate_assets fs).2 =
      Event.mkdir :: assets.map (fun a => Event.write a.filename)
    ∧ ∀ n ∈ assetFilenames, (((generate_assets fs).1).files n).isSome = true := by
  constructor
  · simp [generate_assets, h, writeAssets_snd]
  · intro n hn
    rw [generate_assets_files]
    have hs := plannedWrite_isSome n hn
    cases hp : plannedWrite assets n with
    | none => rw [hp] at hs; simp at hs
    | some d => simp [hp]

/-- C7 witness: from the empty state the first event is the directory
creation and the favicon file exists afterwards. -/
theorem C7_witness :
    ((generate_assets emptyFS).2).head? = some Event.mkdir
    ∧ (((generate_assets emptyFS).1).files "favicon.svg").isSome = true := by
  have h := C7_entry_point_creates_dir_then_writes emptyFS rfl
  exact ⟨by rw [h.1]; rfl, h.2 "favicon.svg" (by decide)⟩

/-- C8: if the write of one asset fails, the failure is surfaced
unhandled as the run's result, the assets already written remain exactly
as written, and the remaining assets are not attempted. -/
theorem C8_write_failure_aborts (fail : String → Bool) (fs : FS)
    (pre : List Asset) (a : Asset) (post : List Asset)
    (hsplit : assets = pre ++ a :: post)
    (hpre : ∀ b ∈ pre, fail b.filename = false)
    (hfail : fail a.filename = true) :
    generate_assetsE fail fs = (applyAssets pre (ensureDir fs), some a.filename) := by
  show writeAssetsE fail assets (ensureDir fs) = _
  rw [hsplit]
  exact writeAssetsE_split fail pre a post (ensureDir fs) hpre hfail

/-- C8 witness: with exactly the wordmark write failing, the run from the
empty state stops there, leaving the mark and splash writes applied and
reporting the wordmark filename. -/
theorem C8_witness :
    generate_assetsE failWordmark emptyFS =
      (applyAssets [markAsset, splashAsset] (ensureDir emptyFS),
       some "nebula-x-wordmark.svg") := by
  exact C8_write_failure_aborts failWordmark emptyFS [markAsset, splashAsset]
    wordmarkAsset
    [logoLightAsset, logoDarkAsset, ornateLightAsset, ornateDarkAsset,
     patternAsset, faviconAsset]
    rfl (by decide) rfl

/-- C9: the builder is total: for any sequence of length at least 2 and
any rational scale — zero and negative included — it yields a path
ending in a close instruction; with exactly 2 points the result is the
degenerate closed path move, line, close. -/
theorem C9_buildPath_total_closed (p₀ p₁ : Point) (rest : List Point)
    (scale offX offY : ℚ) :
    (buildPath (p₀ :: p₁ :: rest) scale offX offY).getLast? = some Instr.close
    ∧ buildPath [p₀, p₁] scale offX offY =
        [Instr.move (transformPt scale offX offY p₀),
         Instr.line (transformPt scale offX offY p₁), Instr.close] :=
  ⟨buildPath_getLast _ _ _ _, rfl⟩

/-- C10: every document produced by the template declares a viewBox of
exactly `0 0 width height`, and every written asset satisfies this
invariant. -/
theorem C10_viewbox_matches_dimensions :
    (∀ (w h : ℤ) (c : Content), (create_svg w h c).viewBox = (0, 0, w, h))
    ∧ ∀ a ∈ assets, a.doc.viewBox = (0, 0, a.doc.width, a.doc.height) := by
  refine ⟨fun w h c => rfl, ?_⟩
  intro a ha
  fin_cases ha <;> rfl

/-- C10 witness: the mark asset's viewBox matches its declared
dimensions. -/
theorem C10_witness :
    markAsset.doc.viewBox = (0, 0, markAsset.doc.width, markAsset.doc.height) :=
  C10_viewbox_matches_dimensions.2 markAsset (by simp [assets])
